import Mathlib

/-!
Verification of the libws resilient WebSocket client core.

The Go sources are shallowly embedded: pure computations become Lean
functions, the straight-line bodies of goroutine loop branches become
explicit state-passing functions or event lists, Go errors become an
inductive value type mirroring the sentinel values of errors.go together
with github.com/pkg/errors wrapping, and machine integers are modelled as
Nat/Int with explicit two-complement wraparound where overflow matters.
-/

namespace Libws

/-- Sentinel error values declared in errors.go. -/
inductive Sentinel
  | connectionClosed
  | cannotConnect
  | terminated
  | rateLimit
deriving DecidableEq, BEq

/-- Go error values as this library sees them: a sentinel from errors.go, a
wrap produced by pkg/errors Wrap (which keeps the cause chain and adds a
message), or any other error carrying only its message. -/
inductive GoError
  | sentinel (s : Sentinel)
  | wrap (cause : GoError) (msg : String)
  | generic (msg : String)
deriving DecidableEq, BEq

/-- pkg/errors Is applied to a sentinel target: walk the cause chain. -/
def GoError.is : GoError → Sentinel → Bool
  | .sentinel s, t => s == t
  | .wrap c _, t => c.is t
  | .generic _, _ => false

/-- The Error() rendering of a Go error; pkg/errors renders a wrap as
the wrap message, a colon and the cause rendering. Sentinel texts are the
literals of errors.go. -/
def GoError.message : GoError → String
  | .sentinel .connectionClosed => "connection has been closed"
  | .sentinel .cannotConnect => "connection cannot be established"
  | .sentinel .terminated => "program exit"
  | .sentinel .rateLimit => "rate limit exceeded"
  | .wrap c m => m ++ ": " ++ c.message
  | .generic m => m

/-! ### Messages (message.go) -/

/-- MessageType constant PingMessage = 9. -/
def PingMessage : Nat := 9

/-- MessageType constant PongMessage = 10. -/
def PongMessage : Nat := 10

/-- MessageType constant BinaryMessage = 2. -/
def BinaryMessage : Nat := 2

/-- MessageType constant DataMessage = 1. -/
def DataMessage : Nat := 1

/-- MessageType constant CloseError = 8. -/
def CloseError : Nat := 8

/-- The message struct of message.go: a kind tag and payload bytes. -/
structure Msg where
  MessageType : Nat
  MessageData : List Nat
deriving DecidableEq

/-- NewMessage from message.go. -/
def NewMessage (mt : Nat) (data : List Nat) : Msg :=
  { MessageType := mt, MessageData := data }

/-- NewPingMessage from message.go. -/
def NewPingMessage (data : List Nat) : Msg := NewMessage PingMessage data

/-- NewPongMessage from message.go. -/
def NewPongMessage (data : List Nat) : Msg := NewMessage PongMessage data

/-! ### Passive keep-alive handler (conn_keep_alive_passive.go)

Calls made on the inner ConnectionHandler are recorded as a list of
operations, in program order. -/

/-- An operation issued on an inner ConnectionHandler. -/
inductive InnerOp
  | send (m : Msg)
  | recv (m : Msg)
deriving DecidableEq

/-- KeepAliveHandlerReplyPingWithPong of conn_keep_alive_passive.go: if the
message type is PingMessage, issue Send of a pong built from the same
payload on the given handler; otherwise do nothing. The result is the list
of inner-handler calls the policy performs. -/
def KeepAliveHandlerReplyPingWithPong (m : Msg) : List InnerOp :=
  if m.MessageType = PingMessage then [InnerOp.send (NewPongMessage m.MessageData)]
  else []

/-- passiveKeepAliveConnectionHandler.Recv: first run the policy on the
inner handler, then forward the original message to the inner Recv. -/
def passiveKeepAliveRecv (policy : Msg → List InnerOp) (m : Msg) : List InnerOp :=
  policy m ++ [InnerOp.recv m]

/-! ### Backoff reconnect handler (conn_reconnect_retry_backoff.go) -/

/-- Result of one ConnectionHandler.Connect attempt made by a loop, as the
loop observes it. -/
inductive ConnectOutcome
  | ok
  | fail (e : GoError)
deriving DecidableEq

/-- A sleep performed by the backoff connecting loop: either the fixed one
second of the ErrCannotConnect branch, or a calculator value. -/
inductive Sleep
  | fixedOneSecond
  | backoff (d : Nat)
deriving DecidableEq

/-- backoffConnectionHandler.newConnHandler: attempts start with the
counter at 0; each iteration first increments the counter, then connects.
On failure matching ErrCannotConnect it sleeps a fixed second and retries;
on any other failure it sleeps calculator of the already-incremented
counter and retries; on success it returns. The argument list gives the
outcome of each successive factory connect; the result is the sequence of
sleeps performed and whether the loop returned within that schedule. -/
def newConnHandlerRun (calculator : Nat → Nat) :
    List ConnectOutcome → Nat → List Sleep × Bool
  | [], _ => ([], false)
  | ConnectOutcome.ok :: _, _ => ([], true)
  | ConnectOutcome.fail e :: rest, attempts =>
    if e.is .cannotConnect then
      let r := newConnHandlerRun calculator rest (attempts + 1)
      (Sleep.fixedOneSecond :: r.1, r.2)
    else
      let r := newConnHandlerRun calculator rest (attempts + 1)
      (Sleep.backoff (calculator (attempts + 1)) :: r.1, r.2)

/-- backoffConnectionHandler.Connect: the first connection is opened
synchronously by newConnHandler (counter starting at 0), then the run
goroutine is spawned and nil is returned. The value is none while the
inner loop has not returned within the given schedule, and some of the
returned error (always nil in the code) once it has. -/
def backoffConnect (calculator : Nat → Nat) (outcomes : List ConnectOutcome) :
    Option (Option GoError) :=
  if (newConnHandlerRun calculator outcomes 0).2 then some none else none

/-- State owned by the run loop of the backoff handler: the attempt counter
and the closeReason field. -/
structure BackoffLoopState where
  attempts : Nat
  closeReason : Option GoError
deriving DecidableEq

/-- Outcome of one pass through the innerCloseChan branch of run. -/
structure RepairResult where
  state : BackoffLoopState
  sleep : Nat
deriving DecidableEq

/-- The innerCloseChan branch of backoffConnectionHandler.run: capture the
inner close error into closeReason; when it is non-nil and matches
ErrConnectionClosed or ErrTerminated, reset the counter to 0 if the
elapsed time since the last successful connect exceeds
connDurationThreshold, else increment it; otherwise leave the counter
unchanged. Then sleep calculator of the resulting counter. -/
def backoffRepair (calculator : Nat → Nat) (connDurationThreshold : Nat)
    (st : BackoffLoopState) (innerCloseErr : Option GoError) (delta : Nat) :
    RepairResult :=
  let closeReason := innerCloseErr
  let attempts :=
    match closeReason with
    | some r =>
      if r.is .connectionClosed || r.is .terminated then
        if delta > connDurationThreshold then 0 else st.attempts + 1
      else st.attempts
    | none => st.attempts
  { state := { attempts := attempts, closeReason := closeReason },
    sleep := calculator attempts }

/-- The recv branch of backoffConnectionHandler.run: a dequeued message is
forwarded to the inner Recv only when the inner pointer is non-nil;
otherwise it is dropped. The inner handler is identified by a number. -/
def runRecvBranch (inner : Option Nat) (msg : Msg) : List InnerOp :=
  match inner with
  | some _ => [InnerOp.recv msg]
  | none => []

/-- The send branch of backoffConnectionHandler.run: like the recv branch,
forwarding to the inner Send only when the inner pointer is non-nil. -/
def runSendBranch (inner : Option Nat) (msg : Msg) : List InnerOp :=
  match inner with
  | some _ => [InnerOp.send msg]
  | none => []

/-- The channel capacities chosen by newBackoffConnectionHandler:
make chan Message with capacity 32 for both send and recv. -/
structure BackoffChannels where
  sendCap : Nat
  recvCap : Nat
deriving DecidableEq

/-- newBackoffConnectionHandler of conn_reconnect_retry_backoff.go,
restricted to the channel construction it performs. -/
def newBackoffConnectionHandler : BackoffChannels :=
  { sendCap := 32, recvCap := 32 }

/-! ### Backoff calculator (conn_reconnect_retry_backoff.go) -/

/-- Two-complement wraparound of Go int64 arithmetic: reduce an exact
integer into the interval from negative 2 to the 63rd up to one below 2 to
the 63rd. -/
def toInt64 (x : Int) : Int :=
  (x + 9223372036854775808) % 18446744073709551616 - 9223372036854775808

/-- The int64 value of the Go conversion time.Duration applied to
ExponentialBackoff attempts, namely the truncation of the float64 value
of 2 to the attempts, minus 1, halved. The float64 computation is exact
for attempts up to 53 (the power of two, the subtraction of one and the
halving are all exactly representable there), and truncation toward zero
of the resulting non-negative half-integer equals the floor, which on Nat
is the division by 2. -/
def ExponentialBackoffTrunc (attempts : Nat) : Nat :=
  (2 ^ attempts - 1) / 2

/-- ExponentialBackoffSeconds: the truncated backoff value multiplied by
time.Second, i.e. by 1000000000 nanoseconds, in wrapping int64
arithmetic. The result is the duration in nanoseconds. -/
def ExponentialBackoffSeconds (attempts : Nat) : Int :=
  toInt64 ((ExponentialBackoffTrunc attempts : Int) * 1000000000)

/-! ### Dial error handling of WsConnection -/

/-- The part of an HTTP response that handleDialError inspects: the status
code and the body text, where bodyRead is some s exactly when the body is
non-nil and reading it succeeds with content s (otherwise the message
variable stays empty). -/
structure HTTPResponse where
  statusCode : Nat
  bodyRead : Option String
deriving DecidableEq

/-- WsConnection.handleDialError on its default path, i.e. when the OnDial
error adapter is nil (a non-nil adapter replaces this logic entirely):
with a response present whose status is 429, return ErrRateLimit wrapped
with the body text; otherwise, with a non-nil dial error, return
ErrCannotConnect wrapped with that error rendering; otherwise nil. -/
def handleDialError (resp : Option HTTPResponse) (err : Option GoError) :
    Option GoError :=
  match resp with
  | some r =>
    let msg := match r.bodyRead with | some s => s | none => ""
    if r.statusCode = 429 then some (GoError.wrap (GoError.sentinel .rateLimit) msg)
    else
      match err with
      | some e => some (GoError.wrap (GoError.sentinel .cannotConnect) e.message)
      | none => none
  | none =>
    match err with
    | some e => some (GoError.wrap (GoError.sentinel .cannotConnect) e.message)
    | none => none

/-- WsConnection.setCloseReason state: whether the closeReasonOnce guard
has fired, and the stored reason. -/
structure OnceCell where
  done : Bool
  value : Option GoError
deriving DecidableEq

/-- WsConnection.setCloseReason: the assignment runs under a once-guard,
so only the first call stores its argument. -/
def OnceCell.setCloseReason (c : OnceCell) (e : GoError) : OnceCell :=
  if c.done then c else { done := true, value := some e }

/-! ### Reopen-interval handler (the rotation handler source file) -/

/-- The observable steps of one pass through the ticker branch of
reopenIntervalConnectionHandler.run, in program order: the new inner
handler is created and connected, the write lock on the inner pointer is
taken, the old inner is closed, the new one is assigned to the inner
pointer, and the lock is released. -/
inductive RotEvent
  | connectStartNew
  | lockWrite
  | closeStartOld
  | assignInner
  | unlockWrite
deriving DecidableEq, BEq

/-- The ticker branch of run as its sequence of steps. -/
def reopenTickerBranch : List RotEvent :=
  [RotEvent.connectStartNew, RotEvent.lockWrite, RotEvent.closeStartOld,
   RotEvent.assignInner, RotEvent.unlockWrite]

/-- An event of the rotation history, tagged with the generation of the
inner handler it concerns; generation 0 is the handler installed by
Connect and rotation k installs generation k. -/
inductive GenEvent
  | connectStart (gen : Nat)
  | closeStart (gen : Nat)
  | assign (gen : Nat)
deriving DecidableEq

/-- The event history of n scheduled rotations of run: rotation k
(numbered from 1) first creates and connects handler generation k, then
closes generation k minus 1, then assigns generation k to the inner
pointer, exactly in the order the ticker branch executes. -/
def reopenRunTrace : Nat → List GenEvent
  | 0 => []
  | n + 1 =>
    reopenRunTrace n ++
      [GenEvent.connectStart (n + 1), GenEvent.closeStart n, GenEvent.assign (n + 1)]

/-- reopenIntervalConnectionHandler.newConnectionHandler: keep creating and
connecting handlers until one connect succeeds; failures only close the
fresh handler and retry. The result tells whether the loop returned
within the given schedule of outcomes. -/
def newConnectionHandlerRuns : List ConnectOutcome → Bool
  | [] => false
  | ConnectOutcome.ok :: _ => true
  | ConnectOutcome.fail _ :: rest => newConnectionHandlerRuns rest

/-- reopenIntervalConnectionHandler.Connect: install the handler produced
by newConnectionHandler, spawn run and return nil. The value is none
while newConnectionHandler has not returned within the schedule, and some
of the returned error (always nil in the code) once it has. -/
def reopenConnectResult (outcomes : List ConnectOutcome) : Option (Option GoError) :=
  if newConnectionHandlerRuns outcomes then some none else none

/-- The mutable state of the reopen handler that Connect touches: which
inner generation is installed (none before the first call) and how many
run goroutines have been spawned. -/
structure ReopenState where
  innerGen : Option Nat
  runTasks : Nat
deriving DecidableEq

/-- reopenIntervalConnectionHandler.Connect as a state transformer: there
is no guard, so every call installs a fresh inner handler generation and
spawns one more run goroutine, returning nil. -/
def reopenConnect (st : ReopenState) (newGen : Nat) : ReopenState × Option GoError :=
  ({ innerGen := some newGen, runTasks := st.runTasks + 1 }, none)

/-! ### Active keep-alive handler (its source file) -/

/-- The mutable state of the active keep-alive handler that Connect
touches: the connectOnce guard, the number of Connect calls forwarded to
the inner handler, and the number of run goroutines spawned. -/
structure ActiveKAState where
  connectDone : Bool
  innerConnects : Nat
  runTasks : Nat
deriving DecidableEq

/-- activeKeepAliveConnectionHandler.Connect: under the connectOnce guard,
forward Connect to the inner handler and spawn the ticker goroutine,
returning the inner connect error; a later call does nothing and returns
the nil value of the named return. -/
def activeKeepAliveConnect (innerErr : Option GoError) (st : ActiveKAState) :
    ActiveKAState × Option GoError :=
  if st.connectDone then (st, none)
  else
    ({ connectDone := true, innerConnects := st.innerConnects + 1,
       runTasks := st.runTasks + 1 }, innerErr)

/-! ### Helper lemmas -/

theorem reopenRunTrace_length (n : Nat) : (reopenRunTrace n).length = 3 * n := by
  induction n with
  | zero => rfl
  | succ k ih => simp [reopenRunTrace, ih]; omega

theorem reopenRunTrace_get (n i : Nat) (h : i < n) :
    (reopenRunTrace n)[3 * i]? = some (GenEvent.connectStart (i + 1)) ∧
    (reopenRunTrace n)[3 * i + 1]? = some (GenEvent.closeStart i) := by
  induction n with
  | zero => omega
  | succ k ih =>
    rcases Nat.lt_succ_iff_lt_or_eq.mp h with h' | h'
    · obtain ⟨hc, hcl⟩ := ih h'
      have hlen0 : 3 * i < (reopenRunTrace k).length := by
        rw [reopenRunTrace_length]; omega
      have hlen1 : 3 * i + 1 < (reopenRunTrace k).length := by
        rw [reopenRunTrace_length]; omega
      rw [reopenRunTrace]
      exact ⟨by rw [List.getElem?_append_left hlen0]; exact hc,
             by rw [List.getElem?_append_left hlen1]; exact hcl⟩
    · subst h'
      have hlen : (reopenRunTrace i).length = 3 * i := reopenRunTrace_length i
      rw [reopenRunTrace]
      constructor
      · rw [List.getElem?_append_right (by omega)]
        rw [hlen]
        simp
      · rw [List.getElem?_append_right (by omega)]
        rw [hlen]
        have : 3 * i + 1 - 3 * i = 1 := by omega
        rw [this]
        simp

/-! ### Theorems -/

/-- Claim C1: in the repair step of the backoff handler, after the inner
close-signal fires, a close-reason matching ErrConnectionClosed or
ErrTerminated resets the counter to 0 when the connection lifetime
exceeded connDurationThreshold and increments it by 1 otherwise; any
other close-reason, nil included, leaves the counter unchanged; and the
handler then sleeps the calculator value of the resulting counter. -/
theorem backoffRepair_spec (calculator : Nat → Nat) (thr : Nat)
    (st : BackoffLoopState) (e : Option GoError) (delta : Nat) :
    ((∃ r, e = some r ∧ (r.is .connectionClosed || r.is .terminated) = true) →
      (delta > thr → (backoffRepair calculator thr st e delta).state.attempts = 0) ∧
      (¬ delta > thr →
        (backoffRepair calculator thr st e delta).state.attempts = st.attempts + 1)) ∧
    ((∀ r, e = some r → (r.is .connectionClosed || r.is .terminated) = false) →
      (backoffRepair calculator thr st e delta).state.attempts = st.attempts) ∧
    (backoffRepair calculator thr st e delta).sleep
      = calculator (backoffRepair calculator thr st e delta).state.attempts := by
  refine ⟨?_, ?_, rfl⟩
  · rintro ⟨r, rfl, hr⟩
    constructor <;> intro hd <;> simp [backoffRepair, hr, hd]
  · intro h
    cases e with
    | none => rfl
    | some r => simp [backoffRepair, h r rfl]

/-- Witness for C1: a concrete repair pass with reason ErrConnectionClosed
and a lifetime above the threshold resets the counter to 0. -/
theorem backoffRepair_spec_witness :
    (backoffRepair (fun n => n) 5
        { attempts := 3, closeReason := none }
        (some (GoError.sentinel .connectionClosed)) 10).state.attempts = 0 :=
  ((backoffRepair_spec (fun n => n) 5 { attempts := 3, closeReason := none }
      (some (GoError.sentinel .connectionClosed)) 10).1
    ⟨GoError.sentinel .connectionClosed, rfl, by decide⟩).1 (by decide)

/-- Counterexample to claim C2: with the identity calculator and a first
connect failure that is not ErrCannotConnect, the loop sleeps the
calculator value at 1, not at 0 as the claim states for the first
failure with the counter starting at 0. -/
theorem newConnHandler_first_sleep_counterexample :
    (newConnHandlerRun (fun n => n)
        [ConnectOutcome.fail (GoError.generic "boom")] 0).1 = [Sleep.backoff 1] ∧
    Sleep.backoff 1 ≠ Sleep.backoff 0 := by
  decide

/-- Claim C2 (amended): the connecting loop increments the counter before
each attempt, so a failure other than ErrCannotConnect sleeps the
calculator value of the already-incremented counter: starting the loop
with counter a, the k-th such failure sleeps the calculator at a + k. -/
theorem newConnHandler_backoff_schedule (calculator : Nat → Nat) (n a : Nat) :
    (newConnHandlerRun calculator
        (List.replicate n (ConnectOutcome.fail (GoError.generic "boom"))) a).1
      = (List.range n).map (fun i => Sleep.backoff (calculator (a + i + 1))) := by
  induction n generalizing a with
  | zero => rfl
  | succ k ih =>
    rw [List.replicate_succ, List.range_succ_eq_map]
    show Sleep.backoff (calculator (a + 1)) ::
        (newConnHandlerRun calculator
          (List.replicate k (ConnectOutcome.fail (GoError.generic "boom"))) (a + 1)).1 = _
    rw [ih (a + 1)]
    simp only [List.map_cons, List.map_map]
    refine congrArg₂ _ (by rw [Nat.add_zero]) ?_
    exact List.map_congr_left fun i _ => by
      simp only [Function.comp]
      exact congrArg Sleep.backoff (congrArg calculator (by omega))

/-- Counterexample to claim C3: in the ticker branch of the rotation
handler the assignment of the new inner handler does not precede the
close of the old one; the close comes first. -/
theorem reopen_swap_not_before_close :
    ¬ reopenTickerBranch.indexOf RotEvent.assignInner
        < reopenTickerBranch.indexOf RotEvent.closeStartOld ∧
    reopenTickerBranch.indexOf RotEvent.closeStartOld
      < reopenTickerBranch.indexOf RotEvent.assignInner := by
  decide

/-- Claim C3 (amended): on every scheduled rotation the new inner handler
is created and connected first; then, under the write lock, the old inner
is closed and only after that is the new one swapped in; hence for every
rotation i at least 1, the connect of generation i appears in the run
history strictly before the close of generation i minus 1. -/
theorem reopen_rotation_order (n i : Nat) (h1 : 1 ≤ i) (h2 : i ≤ n) :
    (∃ p q : Nat, p < q ∧
      (reopenRunTrace n)[p]? = some (GenEvent.connectStart i) ∧
      (reopenRunTrace n)[q]? = some (GenEvent.closeStart (i - 1))) ∧
    reopenTickerBranch.indexOf RotEvent.connectStartNew
      < reopenTickerBranch.indexOf RotEvent.closeStartOld ∧
    reopenTickerBranch.indexOf RotEvent.lockWrite
      < reopenTickerBranch.indexOf RotEvent.closeStartOld ∧
    reopenTickerBranch.indexOf RotEvent.closeStartOld
      < reopenTickerBranch.indexOf RotEvent.assignInner ∧
    reopenTickerBranch.indexOf RotEvent.assignInner
      < reopenTickerBranch.indexOf RotEvent.unlockWrite := by
  refine ⟨?_, by decide, by decide, by decide, by decide⟩
  obtain ⟨hc, hcl⟩ := reopenRunTrace_get (n := n) (i := i - 1) (by omega)
  refine ⟨3 * (i - 1), 3 * (i - 1) + 1, by omega, ?_, hcl⟩
  rwa [Nat.sub_add_cancel h1] at hc

/-- Witness for C3 (amended): the history of two rotations contains the
connect of generation 2 before the close of generation 1. -/
theorem reopen_rotation_order_witness :
    (∃ p q : Nat, p < q ∧
      (reopenRunTrace 2)[p]? = some (GenEvent.connectStart 2) ∧
      (reopenRunTrace 2)[q]? = some (GenEvent.closeStart 1)) ∧
    reopenTickerBranch.indexOf RotEvent.connectStartNew
      < reopenTickerBranch.indexOf RotEvent.closeStartOld ∧
    reopenTickerBranch.indexOf RotEvent.lockWrite
      < reopenTickerBranch.indexOf RotEvent.closeStartOld ∧
    reopenTickerBranch.indexOf RotEvent.closeStartOld
      < reopenTickerBranch.indexOf RotEvent.assignInner ∧
    reopenTickerBranch.indexOf RotEvent.assignInner
      < reopenTickerBranch.indexOf RotEvent.unlockWrite :=
  reopen_rotation_order 2 2 (by decide) (by decide)

/-- Claim C4: a message dequeued by the run loop of the backoff handler
while the inner pointer is nil is dropped by the guarded check and
forwarded to no inner handler, for the recv and the send branch alike;
and the constructor makes both queues bounded channels of capacity 32. -/
theorem backoff_drops_when_inner_nil (msg : Msg) :
    runRecvBranch none msg = [] ∧ runSendBranch none msg = [] ∧
    newBackoffConnectionHandler.sendCap = 32 ∧
    newBackoffConnectionHandler.recvCap = 32 :=
  ⟨rfl, rfl, rfl, rfl⟩

/-- Counterexample to claim C5: a backoff handler whose closeReason was
already set to ErrConnectionClosed has it replaced by ErrTerminated when a
later inner close carries that different reason: the close-reason write is
not first-writer-wins for this handler. -/
theorem backoff_closeReason_overwrite :
    (backoffRepair (fun _ => 0) 0
        { attempts := 0, closeReason := some (GoError.sentinel .connectionClosed) }
        (some (GoError.sentinel .terminated)) 1).state.closeReason
      = some (GoError.sentinel .terminated) ∧
    (some (GoError.sentinel .terminated) : Option GoError)
      ≠ some (GoError.sentinel .connectionClosed) :=
  ⟨rfl, by decide⟩

/-- Claim C5 (amended): the WebSocket connection sets its close-reason
under a once-guard, so a second write never replaces the first; the
backoff reconnect handler instead overwrites its closeReason with the
inner close error on every repair pass (last writer wins). -/
theorem closeReason_write_policy (c : OnceCell) (e1 e2 : GoError)
    (calculator : Nat → Nat) (thr : Nat) (st : BackoffLoopState)
    (r : Option GoError) (delta : Nat) :
    (c.setCloseReason e1).setCloseReason e2 = c.setCloseReason e1 ∧
    (backoffRepair calculator thr st r delta).state.closeReason = r := by
  constructor
  · by_cases h : c.done <;> simp [OnceCell.setCloseReason, h]
  · rfl

/-- Counterexample to claim C6: a second Connect on the reopen-interval
handler is not a no-op; it installs another inner handler and spawns
another run goroutine. -/
theorem reopen_connect_twice_counterexample :
    (reopenConnect (reopenConnect { innerGen := none, runTasks := 0 } 1).1 2).1
      ≠ (reopenConnect { innerGen := none, runTasks := 0 } 1).1 := by
  decide

/-- Claim C6 (amended): a second or later Connect on the active keep-alive
handler is a no-op returning nil, thanks to its once-guard; the
reopen-interval handler has no such guard and every Connect call installs
a fresh inner handler and spawns one more run goroutine. -/
theorem connect_once_policy (e e2 : Option GoError) (st : ActiveKAState)
    (st2 : ReopenState) (g : Nat) :
    activeKeepAliveConnect e2 (activeKeepAliveConnect e st).1
        = ((activeKeepAliveConnect e st).1, none) ∧
    (reopenConnect st2 g).1.runTasks = st2.runTasks + 1 ∧
    (reopenConnect st2 g).1.innerGen = some g := by
  refine ⟨?_, rfl, rfl⟩
  by_cases h : st.connectDone <;> simp [activeKeepAliveConnect, h]

/-- Counterexample to claim C7: a connect failure carrying the wrapped
rate-limit error of a 429 response takes the calculator branch of the
backoff connecting loop, not the fixed one-second branch. -/
theorem rate_limit_not_cannot_connect :
    (newConnHandlerRun (fun n => n)
        [ConnectOutcome.fail (GoError.wrap (GoError.sentinel .rateLimit) "slow down")]
        0).1 = [Sleep.backoff 1] ∧
    [Sleep.backoff 1] ≠ [Sleep.fixedOneSecond] := by
  decide

/-- Claim C7 (amended): an HTTP 429 on dial makes the default dial-error
handling return ErrRateLimit wrapped with the response body; that error
matches ErrRateLimit but not ErrCannotConnect, so the backoff connecting
loop takes the calculator branch rather than the fixed one-second
branch on it. -/
theorem rate_limit_dial_backoff (body : String) (err : Option GoError)
    (calculator : Nat → Nat) (rest : List ConnectOutcome) (a : Nat) :
    handleDialError (some { statusCode := 429, bodyRead := some body }) err
        = some (GoError.wrap (GoError.sentinel .rateLimit) body) ∧
    (GoError.wrap (GoError.sentinel .rateLimit) body).is .rateLimit = true ∧
    (GoError.wrap (GoError.sentinel .rateLimit) body).is .cannotConnect = false ∧
    (newConnHandlerRun calculator
        (ConnectOutcome.fail (GoError.wrap (GoError.sentinel .rateLimit) body) :: rest)
        a).1
      = Sleep.backoff (calculator (a + 1))
          :: (newConnHandlerRun calculator rest (a + 1)).1 :=
  ⟨rfl, rfl, rfl, rfl⟩

/-- Claim C9: under the default passive keep-alive policy, a ping message
causes exactly one pong send carrying the identical payload on the inner
handler, followed by the forwarding of the original message to the inner
Recv; a non-ping message is only forwarded, unchanged and with no pong. -/
theorem passive_keepalive_ping_pong (m : Msg) :
    (m.MessageType = PingMessage →
      passiveKeepAliveRecv KeepAliveHandlerReplyPingWithPong m
        = [InnerOp.send (NewPongMessage m.MessageData), InnerOp.recv m]) ∧
    (m.MessageType ≠ PingMessage →
      passiveKeepAliveRecv KeepAliveHandlerReplyPingWithPong m = [InnerOp.recv m]) := by
  constructor <;> intro h <;>
    simp [passiveKeepAliveRecv, KeepAliveHandlerReplyPingWithPong, h]

/-- Witness for C9: the ping with payload bytes 1 and 2 elicits exactly
the pong with the same payload and then the forwarded ping. -/
theorem passive_keepalive_ping_pong_witness :
    passiveKeepAliveRecv KeepAliveHandlerReplyPingWithPong (NewMessage 9 [1, 2])
      = [InnerOp.send (NewPongMessage [1, 2]), InnerOp.recv (NewMessage 9 [1, 2])] :=
  (passive_keepalive_ping_pong (NewMessage 9 [1, 2])).1 rfl

theorem newConnHandlerRun_snd_counter_free (calculator : Nat → Nat)
    (l : List ConnectOutcome) (a b : Nat) :
    (newConnHandlerRun calculator l a).2 = (newConnHandlerRun calculator l b).2 := by
  induction l generalizing a b with
  | nil => rfl
  | cons o rest ih =>
    cases o with
    | ok => rfl
    | fail e =>
      by_cases h : e.is .cannotConnect <;>
        simp [newConnHandlerRun, h, ih (a + 1) (b + 1)]

/-- Claim C8: Connect on the backoff reconnect handler and on the
reopen-interval handler never surfaces a connection failure: whenever the
call returns, the returned error is nil, and a failed attempt is consumed
inside the call by retrying on the remaining schedule. -/
theorem connect_swallows_failures (calculator : Nat → Nat)
    (outcomes : List ConnectOutcome) (r : Option GoError) :
    (backoffConnect calculator outcomes = some r → r = none) ∧
    (reopenConnectResult outcomes = some r → r = none) ∧
    (∀ e rest, backoffConnect calculator (ConnectOutcome.fail e :: rest)
        = backoffConnect calculator rest) ∧
    (∀ e rest, reopenConnectResult (ConnectOutcome.fail e :: rest)
        = reopenConnectResult rest) := by
  refine ⟨?_, ?_, ?_, ?_⟩
  · intro h
    unfold backoffConnect at h
    split at h
    · exact (Option.some_inj.mp h).symm
    · exact absurd h (by simp)
  · intro h
    unfold reopenConnectResult at h
    split at h
    · exact (Option.some_inj.mp h).symm
    · exact absurd h (by simp)
  · intro e rest
    unfold backoffConnect
    have h2 : (newConnHandlerRun calculator (ConnectOutcome.fail e :: rest) 0).2
        = (newConnHandlerRun calculator rest 0).2 := by
      by_cases h : e.is .cannotConnect <;>
        simp [newConnHandlerRun, h, newConnHandlerRun_snd_counter_free calculator rest 1 0]
    rw [h2]
  · intro e rest
    rfl

/-- Witness for C8: on the schedule where the first attempt succeeds, both
Connect models return, and the returned error is nil. -/
theorem connect_swallows_failures_witness :
    backoffConnect (fun n => n) [ConnectOutcome.ok] = some none ∧
    reopenConnectResult [ConnectOutcome.ok] = some none ∧
    (none : Option GoError) = none :=
  ⟨rfl, rfl,
    (connect_swallows_failures (fun n => n) [ConnectOutcome.ok] none).1 rfl⟩

/-- Counterexample to claim C10: at attempt count 35 the nanosecond count
of the computed duration no longer equals the claimed number of seconds;
the int64 multiplication by time.Second wraps and the duration is
negative. -/
theorem ExponentialBackoffSeconds_overflow :
    ExponentialBackoffSeconds 35 ≠ (ExponentialBackoffTrunc 35 : Int) * 1000000000 ∧
    ExponentialBackoffSeconds 35 < 0 := by
  decide

/-- Claim C10 (amended): for every attempt count up to 34, the default
calculator yields exactly the floor of half of one less than 2 to the n,
in seconds; in particular attempts 0 through 5 give 0, 0, 1, 3, 7 and 15
seconds. The identity fails at attempt count 35, where the nanosecond
count overflows. -/
theorem ExponentialBackoffSeconds_spec (n : Nat) (h : n ≤ 34) :
    ExponentialBackoffSeconds n = (ExponentialBackoffTrunc n : Int) * 1000000000 ∧
    ExponentialBackoffSeconds 0 = 0 ∧
    ExponentialBackoffSeconds 1 = 0 ∧
    ExponentialBackoffSeconds 2 = 1 * 1000000000 ∧
    ExponentialBackoffSeconds 3 = 3 * 1000000000 ∧
    ExponentialBackoffSeconds 4 = 7 * 1000000000 ∧
    ExponentialBackoffSeconds 5 = 15 * 1000000000 := by
  refine ⟨?_, by decide, by decide, by decide, by decide, by decide, by decide⟩
  have hb : ExponentialBackoffTrunc n ≤ 8589934591 := by
    have h2 : 2 ^ n ≤ 2 ^ 34 := Nat.pow_le_pow_right (by norm_num) h
    unfold ExponentialBackoffTrunc
    calc (2 ^ n - 1) / 2 ≤ (2 ^ 34 - 1) / 2 :=
          Nat.div_le_div_right (Nat.sub_le_sub_right h2 1)
    _ = 8589934591 := by norm_num
  have hb' : (ExponentialBackoffTrunc n : Int) ≤ 8589934591 := by exact_mod_cast hb
  have hb0 : (0 : Int) ≤ (ExponentialBackoffTrunc n : Int) := Int.ofNat_nonneg _
  unfold ExponentialBackoffSeconds toInt64
  omega

/-- Witness for C10 (amended): at attempt count 5 the duration is exactly
15 seconds in nanoseconds. -/
theorem ExponentialBackoffSeconds_spec_witness :
    ExponentialBackoffSeconds 5 = (ExponentialBackoffTrunc 5 : Int) * 1000000000 :=
  (ExponentialBackoffSeconds_spec 5 (by decide)).1

end Libws
